import Mathlib

/-!
Shallow embedding of `radar-database.py`: the bounded-concurrency download
pipeline (progress tracker, per-file download task, batch coordinator, and
the link-extraction comprehension), together with theorems settling the
specification claims.

The environment (network, filesystem) is modelled by an `Env` record of
pure oracles: whether a GET for a URL succeeds, which bytes it returns,
whether a file write succeeds, and whether `os.makedirs` succeeds.  The
asyncio event loop is sequentialized: `runTasks` threads the tracker state
through the tasks in link order, which is the order `asyncio.gather`
reports results in.  The semaphore admission control of `download_files`
is modelled separately as a labelled transition system (`SemStep`) over
per-task phases, since it is a temporal property of interleavings.
-/

namespace RadarDB

/-- Environment oracles for one run: network and filesystem behavior.
`fetchOk url` — the GET for `url` succeeds (`raise_for_status` passes);
`fetchBody url` — the bytes returned by a successful GET;
`writeOk filepath` — the `aiofiles` write to `filepath` succeeds;
`makedirsOk dir` — `os.makedirs(dir, exist_ok=True)` succeeds. -/
structure Env where
  makedirsOk : String → Bool
  fetchOk : String → Bool
  fetchBody : String → List Nat
  writeOk : String → Bool

/-- State of `AsyncDownloadProgress`: total fixed at construction,
`completed` counter, the tqdm postfix label, and whether the bar was
closed.  The `asyncio.Lock` around `update` is modelled by updates being
atomic state transitions. -/
structure AsyncDownloadProgress where
  total : Nat
  completed : Nat
  lastFilename : Option String
  closed : Bool
deriving DecidableEq

/-- `AsyncDownloadProgress.__init__(total_files)`: bar at 0 of
`total_files`, no postfix label, not closed. -/
def AsyncDownloadProgress.init (total_files : Nat) : AsyncDownloadProgress :=
  ⟨total_files, 0, none, false⟩

/-- `AsyncDownloadProgress.update(filename=None)`: under the lock,
increment `completed` by one and, when `filename` is truthy (Python
truthiness: a non-`None`, non-empty string), set the postfix label. -/
def AsyncDownloadProgress.update (p : AsyncDownloadProgress)
    (filename : Option String) : AsyncDownloadProgress :=
  { p with
    completed := p.completed + 1
    lastFilename :=
      match filename with
      | some s => if s = "" then p.lastFilename else some s
      | none => p.lastFilename }

/-- `AsyncDownloadProgress.close()`: close the progress bar. -/
def AsyncDownloadProgress.close (p : AsyncDownloadProgress) :
    AsyncDownloadProgress :=
  { p with closed := true }

/-- `s.split('/')` on the character list of `s`: the groups of characters
between the slashes, in order.  Always returns a nonempty list, exactly
as Python's `str.split` with an explicit separator does. -/
def splitOnSlash : List Char → List (List Char)
  | [] => [[]]
  | c :: cs =>
    match splitOnSlash cs with
    | [] => [[]]
    | g :: gs => if c = '/' then [] :: g :: gs else (c :: g) :: gs

/-- `url.split('/')[-1]`: the filename derived from a URL.  Python's
`str.split` never returns an empty list, and neither does `splitOnSlash`,
so the default of `getLastD` is never used. -/
def derivedFilename (url : String) : String :=
  String.mk ((splitOnSlash url.data).getLastD [])

/-- `os.path.join(output_dir, filename)` for a directory name without a
trailing slash and a filename (a last split component, hence without a
slash and not absolute). -/
def filepathOf (output_dir url : String) : String :=
  output_dir ++ "/" ++ derivedFilename url

/-- `download_file(session, url, output_dir, progress_tracker)`:
try: GET the url, raise for bad status, derive the filename, write the
received bytes to `output_dir/filename`, update the tracker with the
filename, return the filename; except: print and return `None`.  The
result is `(returned value, tracker after, files written)`. -/
def download_file (env : Env) (output_dir url : String)
    (t : AsyncDownloadProgress) :
    Option String × AsyncDownloadProgress × List (String × List Nat) :=
  if env.fetchOk url then
    if env.writeOk (filepathOf output_dir url) then
      (some (derivedFilename url),
       t.update (some (derivedFilename url)),
       [(filepathOf output_dir url, env.fetchBody url)])
    else
      (none, t, [])
  else
    (none, t, [])

/-- A task for `url` reaches the success path: the fetch succeeds and so
does the write of `output_dir/filename`. -/
def taskOk (env : Env) (output_dir url : String) : Bool :=
  env.fetchOk url && env.writeOk (filepathOf output_dir url)

/-- The `asyncio.gather` over `bounded_download(link) for link in links`:
one `download_file` per link, results in link order, tracker threaded
through; also accumulates every file written. -/
def runTasks (env : Env) (output_dir : String) :
    List String → AsyncDownloadProgress →
    List (Option String) × AsyncDownloadProgress × List (String × List Nat)
  | [], t => ([], t, [])
  | url :: rest, t =>
    let d := download_file env output_dir url t
    let r := runTasks env output_dir rest d.2.1
    (d.1 :: r.1, r.2.1, d.2.2 ++ r.2.2)

/-- `f'{radar}_{year}_{month}_{day}'`: the dynamic output directory name. -/
def outputDirName (radar year month day : String) : String :=
  radar ++ "_" ++ year ++ "_" ++ month ++ "_" ++ day

/-- A fault raised before any download task is launched: `os.makedirs`
fails, or `asyncio.Semaphore(max_concurrent)` raises
`ValueError` (which it does exactly when its argument is negative). -/
inductive SetupError where
  | makedirsFailed
  | semaphoreValueError
deriving DecidableEq

/-- What `download_files` hands back on a normal return: the list of
successful filenames, the final tracker state, and every file written. -/
structure BatchResult where
  saved : List String
  tracker : AsyncDownloadProgress
  writes : List (String × List Nat)
deriving DecidableEq

/-- `download_files(links, radar, year, month, day, max_concurrent=20)`:
build the output directory name, `os.makedirs` it (a failure propagates),
construct the tracker over `len(links)`, construct the semaphore (a
negative value raises `ValueError`), run one bounded task per link under
`asyncio.gather`, close the tracker, and return
`[r for r in results if r is not None]`. -/
def download_files (env : Env) (links : List String)
    (radar year month day : String) (max_concurrent : Int) :
    Except SetupError BatchResult :=
  let output_dir := outputDirName radar year month day
  if env.makedirsOk output_dir then
    if max_concurrent < 0 then
      .error .semaphoreValueError
    else
      let t0 := AsyncDownloadProgress.init links.length
      let r := runTasks env output_dir links t0
      .ok ⟨r.1.filterMap id, r.2.1.close, r.2.2⟩
  else
    .error .makedirsFailed

/-! ### Link extraction (`fetch_download_links`) -/

/-- An `<a>` tag as found inside a `bdpLink` div: its `href` attribute,
when present.  `tag['href']` raises `KeyError` when it is absent. -/
structure Anchor where
  href : Option String
deriving DecidableEq

/-- A `div` of class `bdpLink` as returned by `soup.find_all`: the anchor
`link.find('a')`, when one exists. -/
structure BdpDiv where
  anchor : Option Anchor
deriving DecidableEq

/-- The comprehension inside `fetch_download_links`:
`[urljoin(url, link.find('a')['href']) for link in download_links if link.find('a')]`.
The network fetch and BeautifulSoup parsing are abstracted into the
`divs` input (the `find_all('div', class_='bdpLink')` result); `urljoin`
is passed in as the collaborator it is.  A div without an anchor fails
the guard and is skipped; a div whose anchor lacks an `href` raises
`KeyError` (modelled as `Except.error ()`), evaluated left to right. -/
def fetch_download_links (urljoin : String → String → String) (url : String) :
    List BdpDiv → Except Unit (List String)
  | [] => .ok []
  | d :: ds =>
    match d.anchor with
    | none => fetch_download_links urljoin url ds
    | some a =>
      match a.href with
      | none => .error ()
      | some h => (fetch_download_links urljoin url ds).map
          (fun ls => urljoin url h :: ls)

/-! ### Semaphore admission control (for the temporal claim)

Each of the `len(links)` tasks created by `download_files` is, at any
instant, `waiting` on `async with sem` (not yet admitted), `active`
inside the semaphore block performing the fetch/write step, or `done`
(the block exited, permit released).  `asyncio.Semaphore(cap)` admits a
waiting task only while fewer than `cap` permits are held. -/

/-- Phase of one `bounded_download` task. -/
inductive TaskPhase where
  | waiting
  | active
  | done
deriving DecidableEq

/-- Number of tasks currently inside the semaphore block. -/
def countActive (ts : List TaskPhase) : Nat :=
  ts.countP (fun p => p == TaskPhase.active)

/-- Initial interleaving state: every task created by the comprehension
`[bounded_download(link) for link in links]` is waiting for admission. -/
def initPhases (links : List String) : List TaskPhase :=
  links.map (fun _ => TaskPhase.waiting)

/-- One scheduler step: the semaphore admits a waiting task only when
fewer than `cap` tasks hold a permit (`acquire`), or an active task
finishes its fetch/write and releases its permit (`release`). -/
inductive SemStep (cap : Nat) : List TaskPhase → List TaskPhase → Prop where
  | acquire (l1 l2 : List TaskPhase)
      (h : countActive (l1 ++ TaskPhase.waiting :: l2) < cap) :
      SemStep cap (l1 ++ TaskPhase.waiting :: l2) (l1 ++ TaskPhase.active :: l2)
  | release (l1 l2 : List TaskPhase) :
      SemStep cap (l1 ++ TaskPhase.active :: l2) (l1 ++ TaskPhase.done :: l2)

/-- Interleaving states reachable during a run of `download_files` over
`links` with semaphore capacity `cap`. -/
def SemReachable (cap : Nat) (links : List String)
    (s : List TaskPhase) : Prop :=
  Relation.ReflTransGen (SemStep cap) (initPhases links) s

/-! ### Concrete environments for witnesses and counterexamples -/

/-- An environment in which directory creation, every fetch and every
write succeed and every response body is empty. -/
def envAllOk : Env :=
  { makedirsOk := fun _ => true
    fetchOk := fun _ => true
    fetchBody := fun _ => []
    writeOk := fun _ => true }

/-- An environment in which exactly the GET for the URL `"B"` fails
(`raise_for_status` raises) and everything else succeeds. -/
def envBFails : Env :=
  { makedirsOk := fun _ => true
    fetchOk := fun u => !(u == "B")
    fetchBody := fun _ => []
    writeOk := fun _ => true }

/-! ### Helper lemmas -/

/-- `update` increments the completed count by exactly one. -/
theorem update_completed (p : AsyncDownloadProgress) (fn : Option String) :
    (p.update fn).completed = p.completed + 1 := rfl

/-- `update` does not change the total fixed at construction. -/
theorem update_total (p : AsyncDownloadProgress) (fn : Option String) :
    (p.update fn).total = p.total := rfl

/-- `close` does not change the completed count. -/
theorem close_completed (p : AsyncDownloadProgress) :
    p.close.completed = p.completed := rfl

/-- `close` does not change the total. -/
theorem close_total (p : AsyncDownloadProgress) :
    p.close.total = p.total := rfl

/-- `download_file`, written as one case split on the task outcome: both
failure exits (bad status, failed write) take the `except` branch, which
returns `None`, leaves the tracker untouched, and writes nothing. -/
theorem download_file_eq (env : Env) (dir url : String)
    (t : AsyncDownloadProgress) :
    download_file env dir url t =
      if taskOk env dir url then
        (some (derivedFilename url), t.update (some (derivedFilename url)),
         [(filepathOf dir url, env.fetchBody url)])
      else
        (none, t, []) := by
  unfold download_file taskOk
  cases h1 : env.fetchOk url
  · simp [h1]
  · cases h2 : env.writeOk (filepathOf dir url) <;> simp [h1, h2]

/-- The gathered results are, in link order, `some` of the derived
filename for the tasks that reach the success path and `none` for the
rest. -/
theorem runTasks_results (env : Env) (dir : String) (links : List String) :
    ∀ t : AsyncDownloadProgress,
      (runTasks env dir links t).1 =
        links.map (fun u =>
          if taskOk env dir u then some (derivedFilename u) else none) := by
  induction links with
  | nil => intro t; rfl
  | cons url rest ih =>
    intro t
    simp only [runTasks, List.map_cons]
    rw [download_file_eq]
    cases h : taskOk env dir url <;> simp [h, ih]

/-- Running the batch adds exactly one tracker completion per task that
reaches the success path, and nothing for the failures. -/
theorem runTasks_completed (env : Env) (dir : String) (links : List String) :
    ∀ t : AsyncDownloadProgress,
      (runTasks env dir links t).2.1.completed =
        t.completed + links.countP (taskOk env dir) := by
  induction links with
  | nil => intro t; simp [runTasks]
  | cons url rest ih =>
    intro t
    simp only [runTasks]
    rw [download_file_eq]
    cases h : taskOk env dir url
    · simp [h, ih, List.countP_cons, update_completed]
      try omega
    · simp [h, ih, List.countP_cons, update_completed]
      try omega

/-- Running the batch never changes the total fixed at tracker
construction. -/
theorem runTasks_total (env : Env) (dir : String) (links : List String) :
    ∀ t : AsyncDownloadProgress,
      (runTasks env dir links t).2.1.total = t.total := by
  induction links with
  | nil => intro t; rfl
  | cons url rest ih =>
    intro t
    simp only [runTasks]
    rw [download_file_eq]
    cases h : taskOk env dir url <;> simp [h, ih, update_total]

/-- Exactly the success-path tasks write a file: the bytes received for
their URL, under the derived filename inside the output directory, in
link order. -/
theorem runTasks_writes (env : Env) (dir : String) (links : List String) :
    ∀ t : AsyncDownloadProgress,
      (runTasks env dir links t).2.2 =
        (links.filter (taskOk env dir)).map
          (fun u => (filepathOf dir u, env.fetchBody u)) := by
  induction links with
  | nil => intro t; rfl
  | cons url rest ih =>
    intro t
    simp only [runTasks]
    rw [download_file_eq]
    cases h : taskOk env dir url <;> simp [h, ih, List.filter_cons]

/-- When setup succeeds (`os.makedirs` does not raise and the semaphore
value is non-negative), `download_files` returns normally with the
filtered gather results, the closed tracker, and the recorded writes. -/
theorem download_files_ok (env : Env) (links : List String)
    (radar year month day : String) (cap : Int)
    (hm : env.makedirsOk (outputDirName radar year month day) = true)
    (hc : ¬ cap < 0) :
    download_files env links radar year month day cap =
      Except.ok
        ⟨(runTasks env (outputDirName radar year month day) links
            (AsyncDownloadProgress.init links.length)).1.filterMap id,
         (runTasks env (outputDirName radar year month day) links
            (AsyncDownloadProgress.init links.length)).2.1.close,
         (runTasks env (outputDirName radar year month day) links
            (AsyncDownloadProgress.init links.length)).2.2⟩ := by
  unfold download_files
  simp [hm, hc]

/-- Keeping the non-`None` elements of a list of optional results and
counting the `None`s partitions the list. -/
theorem length_filterMap_id_add_countP_none (l : List (Option String)) :
    (l.filterMap id).length + l.countP (fun r => r.isNone) = l.length := by
  induction l with
  | nil => rfl
  | cons a l ih => cases a <;> simp [List.countP_cons, ih] <;> omega

/-- Filtering the `some`s out of a map that sends exactly the elements
satisfying `p` to `some (f ·)` is mapping `f` over the `p`-filter. -/
theorem filterMap_id_map_ite (p : String → Bool) (f : String → String)
    (links : List String) :
    (links.map (fun u => if p u then some (f u) else none)).filterMap id =
      (links.filter p).map f := by
  induction links with
  | nil => rfl
  | cons u rest ih => cases h : p u <;> simp [h, List.filter_cons, ih]

/-- The length of a Boolean filter is the count of satisfying
elements. -/
theorem length_filter_eq_countP (p : String → Bool) (l : List String) :
    (l.filter p).length = l.countP p := by
  induction l with
  | nil => rfl
  | cons a l ih => cases h : p a <;> simp [List.filter_cons, List.countP_cons, h, ih]

/-- Successes plus failures partition a list by a Boolean predicate. -/
theorem countP_add_countP_not (p : String → Bool) (l : List String) :
    l.countP p + l.countP (fun a => !p a) = l.length := by
  induction l with
  | nil => rfl
  | cons a l ih => cases h : p a <;> simp [List.countP_cons, h] <;> omega

/-- Folding any sequence of `update` calls over a tracker adds the
length of the sequence to the completed count: in particular the tracker
is total (never faults), even called more times than `total`. -/
theorem foldl_update_completed (fns : List (Option String)) :
    ∀ q : AsyncDownloadProgress,
      (fns.foldl (fun r fn => r.update fn) q).completed =
        q.completed + fns.length := by
  induction fns with
  | nil => intro q; simp
  | cons fn rest ih =>
    intro q
    simp [List.foldl_cons, ih, update_completed]
    omega

/-- No task in the initial state holds a semaphore permit. -/
theorem countActive_initPhases (links : List String) :
    countActive (initPhases links) = 0 := by
  simp [initPhases, countActive]

/-! ### Claim theorems -/

/-- C1: for every link sequence of length N in which M downloads fail
(fetch or write), the coordinator `download_files` still returns
normally (`Except.ok`, no fault escapes) with a `BatchOutcome` of
exactly N − M successfully saved filenames: every per-task failure is
swallowed by `download_file`'s `except` branch and never aborts the
batch or its sibling tasks.  Setup is assumed valid: the output
directory is creatable and the concurrency cap is at least 1 (so the
semaphore admits work). -/
theorem download_files_failure_isolation
    (env : Env) (links : List String) (radar year month day : String)
    (cap : Int)
    (hm : env.makedirsOk (outputDirName radar year month day) = true)
    (hc : 1 ≤ cap) :
    ∃ b, download_files env links radar year month day cap = Except.ok b ∧
      b.saved.length =
        links.length -
          links.countP
            (fun u => !taskOk env (outputDirName radar year month day) u) := by
  have hc' : ¬ cap < 0 := by omega
  refine ⟨_, download_files_ok env links radar year month day cap hm hc', ?_⟩
  show ((runTasks env (outputDirName radar year month day) links
      (AsyncDownloadProgress.init links.length)).1.filterMap id).length = _
  rw [runTasks_results, filterMap_id_map_ite, List.length_map]
  have h1 := countP_add_countP_not
    (taskOk env (outputDirName radar year month day)) links
  have h2 := length_filter_eq_countP
    (taskOk env (outputDirName radar year month day)) links
  omega

/-- C1 witness: three links of which exactly one (the fetch of `"B"`)
fails, cap 20: the batch returns normally with 3 − 1 = 2 saved
filenames. -/
theorem download_files_failure_isolation_witness :
    envBFails.makedirsOk (outputDirName "r" "y" "m" "d") = true ∧
    (1 : Int) ≤ 20 ∧
    ∃ b, download_files envBFails ["A", "B", "C"] "r" "y" "m" "d" 20 =
        Except.ok b ∧
      b.saved.length =
        (["A", "B", "C"] : List String).length -
          (["A", "B", "C"] : List String).countP
            (fun u => !taskOk envBFails (outputDirName "r" "y" "m" "d") u) :=
  ⟨rfl, by decide,
   download_files_failure_isolation envBFails ["A", "B", "C"] "r" "y" "m" "d"
     20 rfl (by decide)⟩

/-- C2 counterexample: with links `["A", "B", "C"]` and exactly the
fetch of `"B"` failing, the final tracker's completed count is 2, not
the 3 the claim requires — `download_file`'s `except` branch returns
`None` without calling `progress_tracker.update`, so failed tasks never
record a completion. -/
theorem tracker_two_of_three_counterexample :
    (download_files envBFails ["A", "B", "C"] "r" "y" "m" "d" 20).map
        (fun b => b.tracker.completed) = Except.ok 2 ∧
      (Except.ok 2 : Except SetupError Nat) ≠ Except.ok 3 :=
  ⟨rfl, by simp⟩

/-- C2 amended: only successful tasks record a completion with the
tracker (with the derived filename); on any failure (fetch or write) the
`except` branch records nothing, so the tracker's completed count equals
the number of successes — in a batch of 3 links where exactly one fetch
fails it reaches 2 of 3 while 2 successes are reported. -/
theorem tracker_completed_equals_success_count
    (env : Env) (links : List String) (radar year month day : String)
    (cap : Int)
    (hm : env.makedirsOk (outputDirName radar year month day) = true)
    (hc : 1 ≤ cap) :
    ∃ b, download_files env links radar year month day cap = Except.ok b ∧
      b.tracker.completed =
        links.countP (taskOk env (outputDirName radar year month day)) ∧
      b.tracker.total = links.length := by
  have hc' : ¬ cap < 0 := by omega
  refine ⟨_, download_files_ok env links radar year month day cap hm hc',
    ?_, ?_⟩
  · show ((runTasks env (outputDirName radar year month day) links
        (AsyncDownloadProgress.init links.length)).2.1.close).completed = _
    rw [close_completed, runTasks_completed]
    simp [AsyncDownloadProgress.init]
  · show ((runTasks env (outputDirName radar year month day) links
        (AsyncDownloadProgress.init links.length)).2.1.close).total = _
    rw [close_total, runTasks_total]
    simp [AsyncDownloadProgress.init]

/-- C2 witness: the 3-link scenario with `"B"` failing — completed count
2, total 3. -/
theorem tracker_completed_equals_success_count_witness :
    envBFails.makedirsOk (outputDirName "r" "y" "m" "d") = true ∧
    (1 : Int) ≤ 20 ∧
    ∃ b, download_files envBFails ["A", "B", "C"] "r" "y" "m" "d" 20 =
        Except.ok b ∧
      b.tracker.completed =
        (["A", "B", "C"] : List String).countP
          (taskOk envBFails (outputDirName "r" "y" "m" "d")) ∧
      b.tracker.total = (["A", "B", "C"] : List String).length :=
  ⟨rfl, by decide,
   tracker_completed_equals_success_count envBFails ["A", "B", "C"]
     "r" "y" "m" "d" 20 rfl (by decide)⟩

/-- C4: for every link sequence of length N the coordinator launches one
task per link and `asyncio.gather` produces exactly N results (the
coordinator returns only after the gather barrier, i.e. with all N
settled), so saved successes plus `None` failures partition N. -/
theorem one_result_per_link
    (env : Env) (links : List String) (radar year month day : String)
    (cap : Int)
    (hm : env.makedirsOk (outputDirName radar year month day) = true)
    (hc : 1 ≤ cap) :
    (runTasks env (outputDirName radar year month day) links
        (AsyncDownloadProgress.init links.length)).1.length = links.length ∧
    ∃ b, download_files env links radar year month day cap = Except.ok b ∧
      b.saved.length +
        (runTasks env (outputDirName radar year month day) links
          (AsyncDownloadProgress.init links.length)).1.countP
            (fun r => r.isNone) = links.length := by
  have hc' : ¬ cap < 0 := by omega
  refine ⟨?_, _, download_files_ok env links radar year month day cap hm hc',
    ?_⟩
  · rw [runTasks_results, List.length_map]
  · show ((runTasks env (outputDirName radar year month day) links
        (AsyncDownloadProgress.init links.length)).1.filterMap id).length + _ = _
    rw [length_filterMap_id_add_countP_none, runTasks_results, List.length_map]

/-- C4 witness: the 3-link scenario — 3 results, 2 successes plus 1
failure equal 3. -/
theorem one_result_per_link_witness :
    envBFails.makedirsOk (outputDirName "r" "y" "m" "d") = true ∧
    (1 : Int) ≤ 20 ∧
    ((runTasks envBFails (outputDirName "r" "y" "m" "d") ["A", "B", "C"]
        (AsyncDownloadProgress.init 3)).1.length = 3 ∧
    ∃ b, download_files envBFails ["A", "B", "C"] "r" "y" "m" "d" 20 =
        Except.ok b ∧
      b.saved.length +
        (runTasks envBFails (outputDirName "r" "y" "m" "d") ["A", "B", "C"]
          (AsyncDownloadProgress.init 3)).1.countP
            (fun r => r.isNone) = 3) :=
  ⟨rfl, by decide,
   one_result_per_link envBFails ["A", "B", "C"] "r" "y" "m" "d" 20 rfl
     (by decide)⟩

/-- C3: for every link sequence and every positive concurrency cap, in
every interleaving state reachable during a run of `download_files`, at
most `cap` tasks are inside the semaphore block actively performing the
fetch/write step: admission is guarded by the counting semaphore, which
admits a waiting task only while fewer than `cap` permits are held. -/
theorem semaphore_bounds_active_tasks
    (links : List String) (cap : Nat) (s : List TaskPhase)
    (hcap : 0 < cap) (hs : SemReachable cap links s) :
    countActive s ≤ cap := by
  induction hs with
  | refl => rw [countActive_initPhases]; omega
  | tail _ hstep ih =>
    cases hstep with
    | acquire l1 l2 h =>
      simp only [countActive, List.countP_append, List.countP_cons] at h ih ⊢
      simp only [beq_iff_eq, reduceCtorEq] at h ih ⊢
      simp at h ih ⊢
      omega
    | release l1 l2 =>
      simp only [countActive, List.countP_append, List.countP_cons] at ih ⊢
      simp at ih ⊢
      omega

/-- C3 witness: one link, cap 1: the initial state is reachable and has
at most 1 active task. -/
theorem semaphore_bounds_active_tasks_witness :
    0 < 1 ∧ countActive (initPhases ["a"]) ≤ 1 :=
  ⟨Nat.one_pos,
   semaphore_bounds_active_tasks ["a"] 1 (initPhases ["a"]) Nat.one_pos
     Relation.ReflTransGen.refl⟩

/-- C5 counterexample: a concurrency cap of 0 is invalid per the claim
(`< 1`), yet `download_files` surfaces no SetupFailure: with an empty
link list and cap 0 it returns normally — the code performs no `≥ 1`
validation (`asyncio.Semaphore(0)` is accepted). -/
theorem zero_cap_no_setup_error :
    download_files envAllOk [] "r" "y" "m" "d" 0 =
      Except.ok ⟨[], ⟨0, 0, none, true⟩, []⟩ := rfl

/-- C5 amended: the coordinator performs no explicit `≥ 1` validation of
the concurrency cap.  A setup fault is surfaced immediately to the
caller — with no download task launched — exactly when the output
directory cannot be created (`os.makedirs` raises) or the cap is
negative (`asyncio.Semaphore` raises `ValueError`); a cap of 0 passes
setup, and with a nonempty link list the batch then blocks forever
rather than failing fast. -/
theorem setup_error_iff
    (env : Env) (links : List String) (radar year month day : String)
    (cap : Int) :
    (∃ e, download_files env links radar year month day cap =
        Except.error e) ↔
      (env.makedirsOk (outputDirName radar year month day) = false ∨
        cap < 0) := by
  unfold download_files
  cases hm : env.makedirsOk (outputDirName radar year month day) <;>
    by_cases hc : cap < 0 <;> simp [hm, hc]

/-- C6: for the empty link sequence (with creatable output directory and
non-negative cap, which includes 0 since the semaphore is never
acquired), `download_files` returns an empty `BatchOutcome`: the tracker
keeps the total 0 fixed at its construction, records no completion, and
no file is written — the only directory side effect is the
already-created output location. -/
theorem empty_links_empty_outcome
    (env : Env) (radar year month day : String) (cap : Int)
    (hm : env.makedirsOk (outputDirName radar year month day) = true)
    (hc : ¬ cap < 0) :
    download_files env [] radar year month day cap =
      Except.ok ⟨[], ⟨0, 0, none, true⟩, []⟩ := by
  unfold download_files
  simp only [hm, hc, if_true, if_false, Bool.true_eq_false]
  rfl

/-- C6 witness: all-succeeding environment, cap 20. -/
theorem empty_links_empty_outcome_witness :
    envAllOk.makedirsOk (outputDirName "r" "y" "m" "d") = true ∧
    ¬ (20 : Int) < 0 ∧
    download_files envAllOk [] "r" "y" "m" "d" 20 =
      Except.ok ⟨[], ⟨0, 0, none, true⟩, []⟩ :=
  ⟨rfl, by decide,
   empty_links_empty_outcome envAllOk "r" "y" "m" "d" 20 rfl (by decide)⟩

/-- C7: for every URL whose fetch succeeds (and whose write the sink
accepts), the task derives the filename deterministically as the URL's
final path segment (`url.split('/')[-1]`), writes the received bytes to
the sink under that filename inside the output directory, records
completion with that filename, and returns exactly that derived name —
the name that then appears in the `BatchOutcome`. -/
theorem download_file_success_path
    (env : Env) (dir url : String) (t : AsyncDownloadProgress)
    (hf : env.fetchOk url = true)
    (hw : env.writeOk (filepathOf dir url) = true) :
    download_file env dir url t =
      (some (derivedFilename url),
       t.update (some (derivedFilename url)),
       [(filepathOf dir url, env.fetchBody url)]) := by
  unfold download_file
  simp [hf, hw]

/-- C7 witness: the URL `"http://h/f.gz"` in an all-succeeding
environment — the derived name is `"f.gz"` and the write lands at
`"out/f.gz"`. -/
theorem download_file_success_path_witness :
    envAllOk.fetchOk "http://h/f.gz" = true ∧
    envAllOk.writeOk (filepathOf "out" "http://h/f.gz") = true ∧
    derivedFilename "http://h/f.gz" = "f.gz" ∧
    filepathOf "out" "http://h/f.gz" = "out/f.gz" ∧
    download_file envAllOk "out" "http://h/f.gz"
        (AsyncDownloadProgress.init 1) =
      (some (derivedFilename "http://h/f.gz"),
       (AsyncDownloadProgress.init 1).update
         (some (derivedFilename "http://h/f.gz")),
       [(filepathOf "out" "http://h/f.gz",
         envAllOk.fetchBody "http://h/f.gz")]) :=
  ⟨rfl, rfl, rfl, rfl,
   download_file_success_path envAllOk "out" "http://h/f.gz"
     (AsyncDownloadProgress.init 1) rfl rfl⟩

/-- C8: the tracker's completed count is monotone — `update` increments
it by exactly one (atomically: the `asyncio.Lock` makes each call one
transition), `close` never decrements it, and `update` is a total
operation, so any sequence of calls, in particular more calls than the
constructed total, is defined (no crash) and leaves the count at the
number of calls, even when that exceeds `total`. -/
theorem tracker_count_monotone_and_safe :
    (∀ (p : AsyncDownloadProgress) (fn : Option String),
        (p.update fn).completed = p.completed + 1) ∧
    (∀ p : AsyncDownloadProgress, p.close.completed = p.completed) ∧
    (∀ (total : Nat) (fns : List (Option String)),
        (fns.foldl (fun q fn => q.update fn)
          (AsyncDownloadProgress.init total)).completed = fns.length) := by
  refine ⟨update_completed, close_completed, ?_⟩
  intro total fns
  rw [foldl_update_completed]
  simp [AsyncDownloadProgress.init]

/-- C9 counterexample: a single `bdpLink` div whose anchor lacks an
`href`.  The guard `if link.find('a')` only tests for the anchor's
presence, so `link.find('a')['href']` raises `KeyError` — extraction
faults instead of skipping the anchor as the claim states. -/
theorem missing_href_raises :
    fetch_download_links (fun _ h => h) "u" [⟨some ⟨none⟩⟩] =
      Except.error () := rfl

/-- C9 amended: malformed page content in which no `bdpLink` div (or
none with an anchor) is found yields an empty — or correspondingly
shortened — sequence, divs without an anchor being silently skipped by
the comprehension guard; but a div whose anchor is present yet lacks an
`href` raises a `KeyError` fault out of extraction rather than being
skipped. -/
theorem extraction_skips_anchorless_divs
    (urljoin : String → String → String) (url : String)
    (divs : List BdpDiv)
    (h : divs.all (fun d => d.anchor.all (fun a => a.href.isSome)) = true) :
    ∃ ls, fetch_download_links urljoin url divs = Except.ok ls ∧
      ls.length = divs.countP (fun d => d.anchor.isSome) := by
  induction divs with
  | nil => exact ⟨[], rfl, rfl⟩
  | cons d ds ih =>
    rw [List.all_cons, Bool.and_eq_true] at h
    obtain ⟨hd, hds⟩ := h
    obtain ⟨ls, h1, h2⟩ := ih hds
    cases hda : d.anchor with
    | none =>
      refine ⟨ls, ?_, ?_⟩
      · simpa [fetch_download_links, hda] using h1
      · simp [List.countP_cons, hda, h2]
    | some a =>
      rw [hda] at hd
      cases hha : a.href with
      | none =>
        simp [Option.all, hha] at hd
      | some s =>
        refine ⟨urljoin url s :: ls, ?_, ?_⟩
        · simp [fetch_download_links, hda, hha, h1, Except.map]
        · simp [List.countP_cons, hda, h2]

/-- C9 witness: one div without an anchor and one whose anchor has an
href — extraction succeeds with 1 link for the 2 divs. -/
theorem extraction_skips_anchorless_divs_witness :
    (([⟨none⟩, ⟨some ⟨some "x"⟩⟩] : List BdpDiv).all
        (fun d => d.anchor.all (fun a => a.href.isSome)) = true) ∧
    ∃ ls, fetch_download_links (fun _ h => h) "u"
        [⟨none⟩, ⟨some ⟨some "x"⟩⟩] = Except.ok ls ∧
      ls.length = ([⟨none⟩, ⟨some ⟨some "x"⟩⟩] : List BdpDiv).countP
        (fun d => d.anchor.isSome) :=
  ⟨rfl, extraction_skips_anchorless_divs (fun _ h => h) "u"
    [⟨none⟩, ⟨some ⟨some "x"⟩⟩] rfl⟩

/-- C10: the list of successful filenames returned by `download_files`
preserves the order of the input link sequence — it is exactly the map
of the derived filename over the in-order sublist of links whose task
succeeds, because `asyncio.gather` returns results in argument order and
the final comprehension only drops the `None`s. -/
theorem saved_preserves_link_order
    (env : Env) (links : List String) (radar year month day : String)
    (cap : Int)
    (hm : env.makedirsOk (outputDirName radar year month day) = true)
    (hc : 1 ≤ cap) :
    ∃ b, download_files env links radar year month day cap = Except.ok b ∧
      b.saved =
        (links.filter (taskOk env (outputDirName radar year month day))).map
          derivedFilename := by
  have hc' : ¬ cap < 0 := by omega
  refine ⟨_, download_files_ok env links radar year month day cap hm hc', ?_⟩
  show (runTasks env (outputDirName radar year month day) links
      (AsyncDownloadProgress.init links.length)).1.filterMap id = _
  rw [runTasks_results, filterMap_id_map_ite]

/-- C10 witness: the links `["A", "B", "C"]` with `"B"` failing — the
saved names keep A before C. -/
theorem saved_preserves_link_order_witness :
    envBFails.makedirsOk (outputDirName "r" "y" "m" "d") = true ∧
    (1 : Int) ≤ 20 ∧
    ∃ b, download_files envBFails ["A", "B", "C"] "r" "y" "m" "d" 20 =
        Except.ok b ∧
      b.saved = ((["A", "B", "C"] : List String).filter
        (taskOk envBFails (outputDirName "r" "y" "m" "d"))).map
          derivedFilename :=
  ⟨rfl, by decide,
   saved_preserves_link_order envBFails ["A", "B", "C"] "r" "y" "m" "d" 20
     rfl (by decide)⟩

end RadarDB
